import Mathlib

/-!
Shallow embedding of the `room_ventilation_advisor` Home Assistant custom
component (files `calculator.py`, `const.py`, `sensor.py`).

Python floats are modelled as real numbers, `math.exp` as `Real.exp`.
The one fallible operation — `_calculate_absolute_humidity`, which raises
`ZeroDivisionError` when one of its two divisions has a zero denominator —
is modelled with `Option`; everything else in the scoring pipeline is total.
Python dictionaries holding optional configuration overrides are modelled as
structures of `Option` fields, and `dict.get(key, default)` as
`Option.getD`.
-/

noncomputable section

namespace RoomVentilationAdvisor

/-! ### Constants from `const.py` -/

def ROOM_TYPE_LIVING_ROOM : String := "living_room"
def ROOM_TYPE_BEDROOM : String := "bedroom"
def ROOM_TYPE_BATHROOM : String := "bathroom"
def ROOM_TYPE_KITCHEN : String := "kitchen"
def ROOM_TYPE_OFFICE : String := "office"

def DEFAULT_WINTER_MONTHS : List ℤ := [12, 1, 2]
def DEFAULT_SUMMER_MONTHS : List ℤ := [6, 7, 8]

/-- `DEFAULT_TIME_FACTORS` from `const.py` (hour lists keyed high/moderate/low). -/
def DEFAULT_TIME_FACTORS_high : List ℤ := [7, 8, 9, 18, 19, 20]

def DEFAULT_TIME_FACTORS_moderate : List ℤ := [6, 10, 11, 16, 17, 21]

def DEFAULT_TIME_FACTORS_low : List ℤ := [0, 1, 2, 3, 4, 5, 12, 13, 14, 15, 22, 23]

/-- A room-time pattern: the (high, moderate, low) hour lists of one room type. -/
def RoomPattern : Type := List ℤ × List ℤ × List ℤ

/-- `DEFAULT_ROOM_TIME_PATTERNS` from `const.py`. -/
def DEFAULT_ROOM_TIME_PATTERNS : List (String × RoomPattern) :=
  [(ROOM_TYPE_BEDROOM,
     ([6, 7, 8, 9, 21, 22, 23], [5, 10, 20],
      [0, 1, 2, 3, 4, 11, 12, 13, 14, 15, 16, 17, 18, 19])),
   (ROOM_TYPE_BATHROOM,
     ([6, 7, 8, 9, 18, 19, 20, 21, 22], [5, 10, 17, 23],
      [0, 1, 2, 3, 4, 11, 12, 13, 14, 15, 16])),
   (ROOM_TYPE_OFFICE,
     ([8, 9, 10, 11, 12, 13, 14, 15, 16, 17], [7, 18, 19],
      [0, 1, 2, 3, 4, 5, 6, 20, 21, 22, 23])),
   (ROOM_TYPE_KITCHEN,
     ([6, 7, 8, 11, 12, 13, 17, 18, 19, 20], [9, 10, 16, 21],
      [0, 1, 2, 3, 4, 5, 14, 15, 22, 23])),
   (ROOM_TYPE_LIVING_ROOM,
     ([6, 7, 8, 9, 17, 18, 19, 20, 21, 22], [10, 11, 12, 13, 14, 15, 16],
      [0, 1, 2, 3, 4, 5, 23]))]

/-! ### Configuration model

`VentilationCalculator.__init__` reads `config[CONF_ADVANCED_SETTINGS]`
(a dict of sub-dicts, every key optional) and resolves each value against the
`DEFAULT_*` constants with `dict.get`.  Each optional sub-dict becomes a
structure of `Option` fields. -/

structure TemperatureThresholdsConfig where
  winter_good : Option ℝ
  winter_moderate : Option ℝ
  summer_good : Option ℝ
  summer_moderate : Option ℝ
  default_good : Option ℝ
  default_moderate : Option ℝ

structure HumidityThresholdsConfig where
  good : Option ℝ
  moderate : Option ℝ

structure Co2ThresholdsConfig where
  very_poor : Option ℝ
  poor : Option ℝ
  moderate : Option ℝ

structure WindThresholdsConfig where
  no_effect : Option ℝ
  moderate_effect : Option ℝ

structure ScoreWeightsConfig where
  temperature : Option ℝ
  humidity : Option ℝ
  co2 : Option ℝ
  time : Option ℝ
  temperature_with_co2 : Option ℝ
  humidity_with_co2 : Option ℝ
  co2_with_sensor : Option ℝ
  time_with_co2 : Option ℝ

structure TimeFactorsConfig where
  high : Option (List ℤ)
  moderate : Option (List ℤ)
  low : Option (List ℤ)

structure AdvancedSettings where
  temperature_thresholds : Option TemperatureThresholdsConfig
  humidity_thresholds : Option HumidityThresholdsConfig
  co2_thresholds : Option Co2ThresholdsConfig
  wind_thresholds : Option WindThresholdsConfig
  score_weights : Option ScoreWeightsConfig
  time_factors : Option TimeFactorsConfig
  room_time_patterns : Option (List (String × RoomPattern))

/-- The integration config dict, restricted to the keys the calculator reads:
`advanced_settings`, and the top-level `enable_wind_factor`, `winter_months`
and `summer_months` that `calculate_room_score` and
`_calculate_temperature_factor` read through `self.config.get`. -/
structure Config where
  advanced_settings : Option AdvancedSettings
  enable_wind_factor : Option Bool
  winter_months : Option (List ℤ)
  summer_months : Option (List ℤ)

/-- `RoomData` dataclass from `calculator.py`. -/
structure RoomData where
  temp_in : ℝ
  humidity_in : ℝ
  temp_out : ℝ
  humidity_out : ℝ
  wind_speed : ℝ
  hour : ℤ
  month : ℤ
  room_type : String
  co2 : Option ℝ

/-- The `VentilationCalculator` object after `__init__` has run: every
configurable value resolved against its default.  `enable_wind_factor`,
`winter_months` and `summer_months` are read from `self.config` at call time
in the Python code; since `self.config` is fixed at construction, they are
resolved here as well. -/
structure VentilationCalculator where
  temp_winter_good : ℝ
  temp_winter_moderate : ℝ
  temp_summer_good : ℝ
  temp_summer_moderate : ℝ
  temp_default_good : ℝ
  temp_default_moderate : ℝ
  humidity_good : ℝ
  humidity_moderate : ℝ
  co2_very_poor : ℝ
  co2_poor : ℝ
  co2_moderate : ℝ
  wind_no_effect : ℝ
  wind_moderate_effect : ℝ
  weight_temp : ℝ
  weight_humidity : ℝ
  weight_co2 : ℝ
  weight_time : ℝ
  weight_temp_with_co2 : ℝ
  weight_humidity_with_co2 : ℝ
  weight_co2_with_sensor : ℝ
  weight_time_with_co2 : ℝ
  time_high : List ℤ
  time_moderate : List ℤ
  time_low : List ℤ
  room_patterns : List (String × RoomPattern)
  enable_wind_factor : Bool
  winter_months : List ℤ
  summer_months : List ℤ

/-- `VentilationCalculator.__init__`: resolve every setting against the
defaults of `const.py` exactly as the chain of `dict.get` calls does. -/
def mkCalculator (config : Config) : VentilationCalculator :=
  let advanced := config.advanced_settings
  let tt := advanced.bind AdvancedSettings.temperature_thresholds
  let ht := advanced.bind AdvancedSettings.humidity_thresholds
  let ct := advanced.bind AdvancedSettings.co2_thresholds
  let wt := advanced.bind AdvancedSettings.wind_thresholds
  let sw := advanced.bind AdvancedSettings.score_weights
  let tf := advanced.bind AdvancedSettings.time_factors
  { temp_winter_good := ((tt.bind TemperatureThresholdsConfig.winter_good).getD 2.0)
    temp_winter_moderate := ((tt.bind TemperatureThresholdsConfig.winter_moderate).getD 0.0)
    temp_summer_good := ((tt.bind TemperatureThresholdsConfig.summer_good).getD 3.0)
    temp_summer_moderate := ((tt.bind TemperatureThresholdsConfig.summer_moderate).getD 0.0)
    temp_default_good := ((tt.bind TemperatureThresholdsConfig.default_good).getD 1.0)
    temp_default_moderate := ((tt.bind TemperatureThresholdsConfig.default_moderate).getD (-2.0))
    humidity_good := ((ht.bind HumidityThresholdsConfig.good).getD 1.0)
    humidity_moderate := ((ht.bind HumidityThresholdsConfig.moderate).getD 0.0)
    co2_very_poor := ((ct.bind Co2ThresholdsConfig.very_poor).getD 1200)
    co2_poor := ((ct.bind Co2ThresholdsConfig.poor).getD 1000)
    co2_moderate := ((ct.bind Co2ThresholdsConfig.moderate).getD 800)
    wind_no_effect := ((wt.bind WindThresholdsConfig.no_effect).getD 15.0)
    wind_moderate_effect := ((wt.bind WindThresholdsConfig.moderate_effect).getD 25.0)
    weight_temp := ((sw.bind ScoreWeightsConfig.temperature).getD 0.35)
    weight_humidity := ((sw.bind ScoreWeightsConfig.humidity).getD 0.35)
    weight_co2 := ((sw.bind ScoreWeightsConfig.co2).getD 0.2)
    weight_time := ((sw.bind ScoreWeightsConfig.time).getD 0.1)
    weight_temp_with_co2 := ((sw.bind ScoreWeightsConfig.temperature_with_co2).getD 0.25)
    weight_humidity_with_co2 := ((sw.bind ScoreWeightsConfig.humidity_with_co2).getD 0.25)
    weight_co2_with_sensor := ((sw.bind ScoreWeightsConfig.co2_with_sensor).getD 0.35)
    weight_time_with_co2 := ((sw.bind ScoreWeightsConfig.time_with_co2).getD 0.15)
    time_high := ((tf.bind TimeFactorsConfig.high).getD DEFAULT_TIME_FACTORS_high)
    time_moderate := ((tf.bind TimeFactorsConfig.moderate).getD DEFAULT_TIME_FACTORS_moderate)
    time_low := ((tf.bind TimeFactorsConfig.low).getD DEFAULT_TIME_FACTORS_low)
    room_patterns := ((advanced.bind AdvancedSettings.room_time_patterns).getD
      DEFAULT_ROOM_TIME_PATTERNS)
    enable_wind_factor := (config.enable_wind_factor.getD true)
    winter_months := (config.winter_months.getD DEFAULT_WINTER_MONTHS)
    summer_months := (config.summer_months.getD DEFAULT_SUMMER_MONTHS) }

/-- The config with no overrides at all (`{}` in Python). -/
def emptyConfig : Config := ⟨none, none, none, none⟩

/-- Calculator built from the empty config: all defaults. -/
def defaultCalculator : VentilationCalculator := mkCalculator emptyConfig

namespace VentilationCalculator

/-- `_calculate_absolute_humidity`.  The Python body divides by
`temp_celsius + 243.5` (inside `math.exp`) and by `273.15 + temp_celsius`;
a zero denominator raises `ZeroDivisionError`, modelled as `none`. -/
def calculate_absolute_humidity (_c : VentilationCalculator)
    (humidity_percent temp_celsius : ℝ) : Option ℝ :=
  if temp_celsius + 243.5 = 0 then none
  else if 273.15 + temp_celsius = 0 then none
  else
    some ((humidity_percent / 100) *
      (6.112 * Real.exp ((17.67 * temp_celsius) / (temp_celsius + 243.5))) *
      2.1674 / (273.15 + temp_celsius) * 100)

/-- `_calculate_temperature_factor`. -/
def calculate_temperature_factor (c : VentilationCalculator)
    (temp_diff : ℝ) (month : ℤ) : ℝ :=
  if month ∈ c.winter_months then
    if temp_diff > c.temp_winter_good then 0.8
    else if temp_diff > c.temp_winter_moderate then 0.4 else 0
  else if month ∈ c.summer_months then
    if temp_diff > c.temp_summer_good then 0.8
    else if temp_diff > c.temp_summer_moderate then 0.3 else 0
  else
    if temp_diff > c.temp_default_good then 0.6
    else if temp_diff > c.temp_default_moderate then 0.3 else 0

/-- `_calculate_humidity_factor`. -/
def calculate_humidity_factor (c : VentilationCalculator) (ah_in ah_out : ℝ) : ℝ :=
  if ah_in - ah_out > c.humidity_good then 1.0
  else if ah_in - ah_out > c.humidity_moderate then 0.5 else 0

/-- `_calculate_co2_factor`.  With a CO₂ reading, threshold tiers; without,
the hardcoded per-room-type hourly `patterns` dict (its keys are distinct, so
the dict-then-`get` is the same as this chain of string comparisons), with
fallback `0.2` for an unknown room type. -/
def calculate_co2_factor (c : VentilationCalculator)
    (room_type : String) (hour : ℤ) (co2 : Option ℝ) : ℝ :=
  match co2 with
  | some v =>
    if v > c.co2_very_poor then 1.0
    else if v > c.co2_poor then 0.7
    else if v > c.co2_moderate then 0.3
    else 0
  | none =>
    if room_type = ROOM_TYPE_BEDROOM then
      if hour ∈ ([6, 7, 8, 9, 21, 22, 23] : List ℤ) then 0.8 else 0.2
    else if room_type = ROOM_TYPE_BATHROOM then
      if hour ∈ ([6, 7, 8, 9, 18, 19, 20, 21, 22] : List ℤ) then 0.7 else 0.3
    else if room_type = ROOM_TYPE_OFFICE then
      if hour ∈ ([8, 9, 10, 11, 12, 13, 14, 15, 16, 17] : List ℤ) then 0.8 else 0.2
    else if room_type = ROOM_TYPE_KITCHEN then
      if hour ∈ ([6, 7, 8] : List ℤ) then 0.8
      else if hour ∈ ([11, 12, 13, 17, 18, 19, 20] : List ℤ) then 0.9 else 0.3
    else if room_type = ROOM_TYPE_LIVING_ROOM then
      if hour ∈ ([6, 7, 8, 9] : List ℤ) then 0.7
      else if hour ∈ ([17, 18, 19, 20, 21, 22] : List ℤ) then 0.6
      else if hour ∈ ([10, 11, 12, 13, 14, 15, 16] : List ℤ) then 0.3 else 0.2
    else 0.2

/-- `_calculate_time_factor` (hardcoded hour sets, ignores the stored
`time_high` / `time_moderate` / `time_low`). -/
def calculate_time_factor (_c : VentilationCalculator) (hour : ℤ) : ℝ :=
  if hour ∈ ([7, 8, 9, 18, 19, 20] : List ℤ) then 0.8
  else if hour ∈ ([6, 10, 11, 16, 17, 21] : List ℤ) then 0.5 else 0.2

/-- `_calculate_wind_factor`. -/
def calculate_wind_factor (c : VentilationCalculator)
    (wind_speed : ℝ) (enable_wind : Bool) : ℝ :=
  if ¬enable_wind then 0
  else if wind_speed < c.wind_no_effect then 0
  else if wind_speed < c.wind_moderate_effect then -0.2 else -0.5

end VentilationCalculator

/-- Python `round(x, 2)`: round to two decimal places.  (Mathlib's `round`
rounds halves up while Python rounds halves to even; none of the statements
below depends on the tie-breaking rule.) -/
def round2 (x : ℝ) : ℝ := ((round (x * 100) : ℤ) : ℝ) / 100

/-- `VentilationCalculator.calculate_room_score`: compute both absolute
humidities (propagating a `ZeroDivisionError` as `none`), the five factors,
then the weighted sum — weight set chosen by CO₂ presence — rounded to two
decimals. -/
def VentilationCalculator.calculate_room_score (c : VentilationCalculator)
    (d : RoomData) : Option ℝ :=
  (c.calculate_absolute_humidity d.humidity_in d.temp_in).bind fun ah_in =>
  (c.calculate_absolute_humidity d.humidity_out d.temp_out).bind fun ah_out =>
  let f_t := c.calculate_temperature_factor (d.temp_in - d.temp_out) d.month
  let f_rh := c.calculate_humidity_factor ah_in ah_out
  let f_co2 := c.calculate_co2_factor d.room_type d.hour d.co2
  let f_time := c.calculate_time_factor d.hour
  let f_w := c.calculate_wind_factor d.wind_speed c.enable_wind_factor
  match d.co2 with
  | none =>
    some (round2 (c.weight_temp * f_t + c.weight_humidity * f_rh +
      c.weight_co2 * f_co2 + c.weight_time * f_time + f_w))
  | some _ =>
    some (round2 (c.weight_temp_with_co2 * f_t + c.weight_humidity_with_co2 * f_rh +
      c.weight_co2_with_sensor * f_co2 + c.weight_time_with_co2 * f_time + f_w))

/-! ### `sensor.py`: score thresholds and advice -/

def SCORE_GOOD : ℝ := 0.5
def SCORE_MODERATE : ℝ := 0.0
def SCORE_POOR : ℝ := -0.3

/-- `VentilationSensor._get_ventilation_advice` (the non-`None` branch). -/
def get_ventilation_advice (score : ℝ) : String :=
  if score ≥ SCORE_GOOD then "Good ventilation - no action needed"
  else if score ≥ SCORE_MODERATE then
    "Moderate ventilation - consider opening windows briefly"
  else if score ≥ SCORE_POOR then
    "Poor ventilation - open windows for 10-15 minutes"
  else "Very poor ventilation - ventilate immediately for 20+ minutes"

/-! ### Auxiliary definitions for the statements -/

/-- The absolute-humidity formula exactly as the spec writes it:
`AH = (RH/100) * SVP * 2.1674 / (273.15+T) * 100` with
`SVP = 6.112 * exp(17.67*T / (T+243.5))`. -/
def absolute_humidity_formula (rh t : ℝ) : ℝ :=
  (rh / 100) * (6.112 * Real.exp ((17.67 * t) / (t + 243.5))) * 2.1674 /
    (273.15 + t) * 100

/-- The argument passed to `math.exp` inside `_calculate_absolute_humidity`. -/
def exp_argument (t : ℝ) : ℝ := (17.67 * t) / (t + 243.5)

/-- A score-weights override that sets only the humidity weight, to `10`. -/
def bigWeights : ScoreWeightsConfig := ⟨none, some 10, none, none, none, none, none, none⟩

/-- Advanced settings carrying only `bigWeights`. -/
def bigAdvanced : AdvancedSettings := ⟨none, none, none, none, some bigWeights, none, none⟩

/-- A config with an extreme custom humidity weight and everything else default. -/
def bigConfig : Config := ⟨some bigAdvanced, none, none, none⟩

/-- Calculator with the extreme humidity weight. -/
def bigCalculator : VentilationCalculator := mkCalculator bigConfig

/-- A reading (very humid inside, dry outside, no CO₂ sensor, calm January
night) whose score under `bigCalculator` exceeds `1`. -/
def unclampedRoom : RoomData := ⟨20, 100, 20, 10, 0, 3, 1, "garage", none⟩

/-- A concrete ordinary reading: 20 °C / 50 % inside, 10 °C / 60 % outside,
5 m/s wind, 8 o'clock in January, bedroom, no CO₂ sensor. -/
def sampleRoom : RoomData := ⟨20, 50, 10, 60, 5, 8, 1, "bedroom", none⟩

/-- The same reading with a CO₂ value of 1300 ppm. -/
def sampleRoomCo2 : RoomData := ⟨20, 50, 10, 60, 5, 8, 1, "office", some 1300⟩

/-- Replace the `time_factors` and `room_time_patterns` entries of a config's
advanced settings, leaving every other setting as it was. -/
def set_time_settings (cfg : Config) (tf : Option TimeFactorsConfig)
    (rp : Option (List (String × RoomPattern))) : Config :=
  let adv := cfg.advanced_settings.getD ⟨none, none, none, none, none, none, none⟩
  ⟨some ⟨adv.temperature_thresholds, adv.humidity_thresholds, adv.co2_thresholds,
     adv.wind_thresholds, adv.score_weights, tf, rp⟩,
   cfg.enable_wind_factor, cfg.winter_months, cfg.summer_months⟩

/-! ### Helper lemmas -/

theorem calculate_absolute_humidity_eq (c : VentilationCalculator) (rh t : ℝ)
    (h1 : t + 243.5 ≠ 0) (h2 : 273.15 + t ≠ 0) :
    c.calculate_absolute_humidity rh t = some (absolute_humidity_formula rh t) := by
  simp [VentilationCalculator.calculate_absolute_humidity, absolute_humidity_formula, h1, h2]

theorem room_score_eq_of_no_co2 (c : VentilationCalculator) (d : RoomData)
    (ah_in ah_out : ℝ)
    (h1 : c.calculate_absolute_humidity d.humidity_in d.temp_in = some ah_in)
    (h2 : c.calculate_absolute_humidity d.humidity_out d.temp_out = some ah_out)
    (hco2 : d.co2 = none) :
    c.calculate_room_score d = some (round2 (
      c.weight_temp * c.calculate_temperature_factor (d.temp_in - d.temp_out) d.month +
      c.weight_humidity * c.calculate_humidity_factor ah_in ah_out +
      c.weight_co2 * c.calculate_co2_factor d.room_type d.hour d.co2 +
      c.weight_time * c.calculate_time_factor d.hour +
      c.calculate_wind_factor d.wind_speed c.enable_wind_factor)) := by
  simp [VentilationCalculator.calculate_room_score, h1, h2, hco2]

theorem room_score_eq_of_co2 (c : VentilationCalculator) (d : RoomData)
    (ah_in ah_out v : ℝ)
    (h1 : c.calculate_absolute_humidity d.humidity_in d.temp_in = some ah_in)
    (h2 : c.calculate_absolute_humidity d.humidity_out d.temp_out = some ah_out)
    (hco2 : d.co2 = some v) :
    c.calculate_room_score d = some (round2 (
      c.weight_temp_with_co2 * c.calculate_temperature_factor (d.temp_in - d.temp_out) d.month +
      c.weight_humidity_with_co2 * c.calculate_humidity_factor ah_in ah_out +
      c.weight_co2_with_sensor * c.calculate_co2_factor d.room_type d.hour d.co2 +
      c.weight_time_with_co2 * c.calculate_time_factor d.hour +
      c.calculate_wind_factor d.wind_speed c.enable_wind_factor)) := by
  simp [VentilationCalculator.calculate_room_score, h1, h2, hco2]

theorem round2_le_of_le (x : ℝ) (n : ℤ) (h : x ≤ (n : ℝ) / 100) :
    round2 x ≤ (n : ℝ) / 100 := by
  have hr : round (x * 100) ≤ n := by
    calc round (x * 100) = ⌊x * 100 + 1 / 2⌋ := round_eq _
    _ ≤ ⌊(n : ℝ) + 1 / 2⌋ := Int.floor_le_floor (by linarith)
    _ = round ((n : ℤ) : ℝ) := (round_eq _).symm
    _ = n := round_intCast n
  have hc : ((round (x * 100) : ℤ) : ℝ) ≤ (n : ℝ) := Int.cast_le.mpr hr
  rw [round2]; linarith

theorem le_round2_of_le (x : ℝ) (n : ℤ) (h : (n : ℝ) / 100 ≤ x) :
    (n : ℝ) / 100 ≤ round2 x := by
  have hr : n ≤ round (x * 100) := by
    calc (n : ℤ) = round ((n : ℤ) : ℝ) := (round_intCast n).symm
    _ = ⌊(n : ℝ) + 1 / 2⌋ := round_eq _
    _ ≤ ⌊x * 100 + 1 / 2⌋ := Int.floor_le_floor (by linarith)
    _ = round (x * 100) := (round_eq _).symm
  have hc : (n : ℝ) ≤ ((round (x * 100) : ℤ) : ℝ) := Int.cast_le.mpr hr
  rw [round2]; linarith

theorem round2_int_div (n : ℤ) : round2 ((n : ℝ) / 100) = (n : ℝ) / 100 := by
  rw [round2, show ((n : ℝ) / 100) * 100 = (n : ℝ) by field_simp, round_intCast]

theorem temperature_factor_bounds (c : VentilationCalculator) (diff : ℝ) (m : ℤ) :
    0 ≤ c.calculate_temperature_factor diff m ∧
      c.calculate_temperature_factor diff m ≤ 1 := by
  unfold VentilationCalculator.calculate_temperature_factor
  split_ifs <;> norm_num

theorem humidity_factor_bounds (c : VentilationCalculator) (a b : ℝ) :
    0 ≤ c.calculate_humidity_factor a b ∧ c.calculate_humidity_factor a b ≤ 1 := by
  unfold VentilationCalculator.calculate_humidity_factor
  split_ifs <;> norm_num

theorem co2_factor_bounds (c : VentilationCalculator) (rt : String) (hr : ℤ)
    (co2 : Option ℝ) :
    0 ≤ c.calculate_co2_factor rt hr co2 ∧ c.calculate_co2_factor rt hr co2 ≤ 1 := by
  cases co2 <;> simp only [VentilationCalculator.calculate_co2_factor] <;>
    split_ifs <;> norm_num

theorem time_factor_bounds (c : VentilationCalculator) (hr : ℤ) :
    0 ≤ c.calculate_time_factor hr ∧ c.calculate_time_factor hr ≤ 1 := by
  unfold VentilationCalculator.calculate_time_factor
  split_ifs <;> norm_num

theorem wind_factor_bounds (c : VentilationCalculator) (w : ℝ) (e : Bool) :
    -0.5 ≤ c.calculate_wind_factor w e ∧ c.calculate_wind_factor w e ≤ 0 := by
  unfold VentilationCalculator.calculate_wind_factor
  split_ifs <;> norm_num

/-! ### Claim theorems -/

/-- C10: two configurations that differ only in the `time_factors` and
`room_time_patterns` advanced settings yield identical room scores for every
reading, even though the constructor does store the configured values. -/
theorem C10_time_settings_never_influence_score (cfg : Config)
    (tf₁ tf₂ : Option TimeFactorsConfig)
    (rp₁ rp₂ : Option (List (String × RoomPattern))) (d : RoomData) :
    ((mkCalculator (set_time_settings cfg tf₁ rp₁)).time_high =
      (tf₁.bind TimeFactorsConfig.high).getD DEFAULT_TIME_FACTORS_high) ∧
    ((mkCalculator (set_time_settings cfg tf₁ rp₁)).room_patterns =
      rp₁.getD DEFAULT_ROOM_TIME_PATTERNS) ∧
    (mkCalculator (set_time_settings cfg tf₁ rp₁)).calculate_room_score d =
      (mkCalculator (set_time_settings cfg tf₂ rp₂)).calculate_room_score d :=
  ⟨rfl, rfl, rfl⟩

/-- C2: for every relative humidity and every temperature other than the two
pole values, `_calculate_absolute_humidity` returns exactly the literal spec
formula (with its ×100 scale factor), and at (RH=50, T=20) it reproduces the
constant given by that formula. -/
theorem C2_absolute_humidity_literal_formula (rh t : ℝ)
    (ht1 : t ≠ -243.5) (ht2 : t ≠ -273.15) :
    (∀ c : VentilationCalculator,
      c.calculate_absolute_humidity rh t =
        some ((rh / 100) * (6.112 * Real.exp ((17.67 * t) / (t + 243.5))) *
          2.1674 / (273.15 + t) * 100)) ∧
    absolute_humidity_formula 50 20 =
      (50 / 100) * (6.112 * Real.exp ((17.67 * 20) / (20 + 243.5))) *
        2.1674 / (273.15 + 20) * 100 := by
  constructor
  · intro c
    have h1 : t + 243.5 ≠ 0 := by
      intro h; apply ht1; linarith
    have h2 : (273.15 : ℝ) + t ≠ 0 := by
      intro h; apply ht2; linarith
    simp [VentilationCalculator.calculate_absolute_humidity, h1, h2]
  · rfl

/-- C2 witness: the theorem applied at RH = 50, T = 20. -/
theorem C2_absolute_humidity_literal_formula_witness :
    (50 : ℝ) ≠ -243.5 ∧ (20 : ℝ) ≠ -273.15 ∧
    defaultCalculator.calculate_absolute_humidity 50 20 =
      some ((50 / 100) * (6.112 * Real.exp ((17.67 * 20) / (20 + 243.5))) *
        2.1674 / (273.15 + 20) * 100) :=
  ⟨by norm_num, by norm_num,
    (C2_absolute_humidity_literal_formula 50 20 (by norm_num) (by norm_num)).1
      defaultCalculator⟩

/-- C3: the wind factor is `0` when disabled; otherwise `0` below the
no-effect threshold, `-0.2` from there up to (strictly below) the
moderate-effect threshold, `-0.5` at or above it.  Both comparisons are
strict `<`, so with the default thresholds `15.0`/`25.0` a wind speed of
exactly `15.0` gives `-0.2` and `30` gives `-0.5`. -/
theorem C3_wind_factor_tiers (c : VentilationCalculator) (w : ℝ) :
    (c.calculate_wind_factor w false = 0) ∧
    (w < c.wind_no_effect → c.calculate_wind_factor w true = 0) ∧
    (c.wind_no_effect ≤ w → w < c.wind_moderate_effect →
      c.calculate_wind_factor w true = -0.2) ∧
    (c.wind_no_effect ≤ w → c.wind_moderate_effect ≤ w →
      c.calculate_wind_factor w true = -0.5) ∧
    defaultCalculator.calculate_wind_factor 15.0 true = -0.2 ∧
    defaultCalculator.calculate_wind_factor 30 true = -0.5 := by
  refine ⟨?_, ?_, ?_, ?_, ?_, ?_⟩
  · simp [VentilationCalculator.calculate_wind_factor]
  · intro h; simp [VentilationCalculator.calculate_wind_factor, h]
  · intro h1 h2
    simp [VentilationCalculator.calculate_wind_factor, not_lt.mpr h1, h2]
  · intro h1 h2
    simp [VentilationCalculator.calculate_wind_factor, not_lt.mpr h1, not_lt.mpr h2]
  · have e1 : defaultCalculator.wind_no_effect = 15.0 := rfl
    have e2 : defaultCalculator.wind_moderate_effect = 25.0 := rfl
    simp [VentilationCalculator.calculate_wind_factor, e1, e2]
    norm_num
  · have e1 : defaultCalculator.wind_no_effect = 15.0 := rfl
    have e2 : defaultCalculator.wind_moderate_effect = 25.0 := rfl
    simp [VentilationCalculator.calculate_wind_factor, e1, e2]
    norm_num

/-- C3 witness: the theorem applied to the default calculator at wind speed
5 m/s, below the default no-effect threshold. -/
theorem C3_wind_factor_tiers_witness :
    (5 : ℝ) < defaultCalculator.wind_no_effect ∧
    defaultCalculator.calculate_wind_factor 5 true = 0 := by
  have h : (5 : ℝ) < defaultCalculator.wind_no_effect := by
    rw [show defaultCalculator.wind_no_effect = 15.0 from rfl]; norm_num
  exact ⟨h, (C3_wind_factor_tiers defaultCalculator 5).2.1 h⟩

/-- C4: the temperature factor selects the winter bucket first (for months in
the winter set, regardless of the summer set), then the summer bucket, then
the shoulder bucket, each with its own tier values `0.8/0.4/0`, `0.8/0.3/0`
and `0.6/0.3/0` and strict `>` threshold comparisons. -/
theorem C4_temperature_factor_seasons (c : VentilationCalculator)
    (diff : ℝ) (m : ℤ) :
    (m ∈ c.winter_months → c.calculate_temperature_factor diff m =
      if diff > c.temp_winter_good then 0.8
      else if diff > c.temp_winter_moderate then 0.4 else 0) ∧
    (m ∉ c.winter_months → m ∈ c.summer_months →
      c.calculate_temperature_factor diff m =
        if diff > c.temp_summer_good then 0.8
        else if diff > c.temp_summer_moderate then 0.3 else 0) ∧
    (m ∉ c.winter_months → m ∉ c.summer_months →
      c.calculate_temperature_factor diff m =
        if diff > c.temp_default_good then 0.6
        else if diff > c.temp_default_moderate then 0.3 else 0) := by
  refine ⟨?_, ?_, ?_⟩
  · intro h; simp [VentilationCalculator.calculate_temperature_factor, h]
  · intro h1 h2; simp [VentilationCalculator.calculate_temperature_factor, h1, h2]
  · intro h1 h2; simp [VentilationCalculator.calculate_temperature_factor, h1, h2]

/-- C4 witness: December (in both the default winter list and not the summer
list) with a temperature difference of 3 °C gives factor 0.8. -/
theorem C4_temperature_factor_seasons_witness :
    (12 : ℤ) ∈ defaultCalculator.winter_months ∧
    defaultCalculator.calculate_temperature_factor 3 12 =
      (if (3 : ℝ) > defaultCalculator.temp_winter_good then 0.8
       else if (3 : ℝ) > defaultCalculator.temp_winter_moderate then 0.4 else 0) :=
  ⟨by decide, (C4_temperature_factor_seasons defaultCalculator 3 12).1 (by decide)⟩

/-- C5: the advice string partitions scores into exactly four tiers with
inclusive lower boundaries at 0.5, 0.0 and -0.3. -/
theorem C5_advice_tiers (s : ℝ) :
    (get_ventilation_advice s = "Good ventilation - no action needed" ↔
      0.5 ≤ s) ∧
    (get_ventilation_advice s =
        "Moderate ventilation - consider opening windows briefly" ↔
      0.0 ≤ s ∧ s < 0.5) ∧
    (get_ventilation_advice s =
        "Poor ventilation - open windows for 10-15 minutes" ↔
      -0.3 ≤ s ∧ s < 0.0) ∧
    (get_ventilation_advice s =
        "Very poor ventilation - ventilate immediately for 20+ minutes" ↔
      s < -0.3) := by
  unfold get_ventilation_advice SCORE_GOOD SCORE_MODERATE SCORE_POOR
  split_ifs with h1 h2 h3 <;>
    refine ⟨?_, ?_, ?_, ?_⟩ <;> simp_all <;>
      first
      | linarith
      | (intro h; linarith)

/-- C5 witness: a score of 0.7 is in the good tier. -/
theorem C5_advice_tiers_witness :
    get_ventilation_advice 0.7 = "Good ventilation - no action needed" :=
  (C5_advice_tiers 0.7).1.mpr (by norm_num)

/-- C6: with a CO₂ reading present the CO₂ factor is the strict-`>` threshold
tier (1.0 / 0.7 / 0.3 / 0); with the default thresholds a reading of 1300
gives 1.0; and any reading carrying a CO₂ value is combined with the
with-CO₂ weight set. -/
theorem C6_co2_factor_tiers (c : VentilationCalculator) (rt : String)
    (hr : ℤ) (v : ℝ) :
    (v > c.co2_very_poor → c.calculate_co2_factor rt hr (some v) = 1.0) ∧
    (v ≤ c.co2_very_poor → v > c.co2_poor →
      c.calculate_co2_factor rt hr (some v) = 0.7) ∧
    (v ≤ c.co2_very_poor → v ≤ c.co2_poor → v > c.co2_moderate →
      c.calculate_co2_factor rt hr (some v) = 0.3) ∧
    (v ≤ c.co2_very_poor → v ≤ c.co2_poor → v ≤ c.co2_moderate →
      c.calculate_co2_factor rt hr (some v) = 0) ∧
    (defaultCalculator.calculate_co2_factor rt hr (some 1300) = 1.0) ∧
    (∀ (d : RoomData) (ah_in ah_out : ℝ), d.co2 = some v →
      c.calculate_absolute_humidity d.humidity_in d.temp_in = some ah_in →
      c.calculate_absolute_humidity d.humidity_out d.temp_out = some ah_out →
      c.calculate_room_score d = some (round2 (
        c.weight_temp_with_co2 *
          c.calculate_temperature_factor (d.temp_in - d.temp_out) d.month +
        c.weight_humidity_with_co2 * c.calculate_humidity_factor ah_in ah_out +
        c.weight_co2_with_sensor * c.calculate_co2_factor d.room_type d.hour d.co2 +
        c.weight_time_with_co2 * c.calculate_time_factor d.hour +
        c.calculate_wind_factor d.wind_speed c.enable_wind_factor))) := by
  refine ⟨?_, ?_, ?_, ?_, ?_, ?_⟩
  · intro hv; simp [VentilationCalculator.calculate_co2_factor, hv]
  · intro hv1 hv2
    simp [VentilationCalculator.calculate_co2_factor, not_lt.mpr hv1, hv2]
  · intro hv1 hv2 hv3
    simp [VentilationCalculator.calculate_co2_factor, not_lt.mpr hv1,
      not_lt.mpr hv2, hv3]
  · intro hv1 hv2 hv3
    simp [VentilationCalculator.calculate_co2_factor, not_lt.mpr hv1,
      not_lt.mpr hv2, not_lt.mpr hv3]
  · have e : defaultCalculator.co2_very_poor = 1200 := rfl
    simp [VentilationCalculator.calculate_co2_factor, e]
    norm_num
  · intro d ah_in ah_out hco2 h1 h2
    exact room_score_eq_of_co2 c d ah_in ah_out v h1 h2 hco2

/-- C6 witness: the theorem applied with the default calculator at
CO₂ = 1300, which is above the default very-poor threshold 1200. -/
theorem C6_co2_factor_tiers_witness :
    (1300 : ℝ) > defaultCalculator.co2_very_poor ∧
    defaultCalculator.calculate_co2_factor "office" 8 (some 1300) = 1.0 := by
  have hv : (1300 : ℝ) > defaultCalculator.co2_very_poor := by
    have e : defaultCalculator.co2_very_poor = 1200 := rfl
    rw [e]; norm_num
  exact ⟨hv, (C6_co2_factor_tiers defaultCalculator "office" 8 1300).1 hv⟩

/-- C7: an unknown room type (not one of the five enumerated ones) is not an
error: the no-CO₂ proxy factor is 0.2 whatever the hour, and scoring still
returns a result for any reading with that room type, no CO₂ value and
non-degenerate temperatures. -/
theorem C7_unknown_room_type_defaults (c : VentilationCalculator)
    (rt : String) (hr : ℤ)
    (hrt : rt ∉ [ROOM_TYPE_LIVING_ROOM, ROOM_TYPE_BEDROOM, ROOM_TYPE_BATHROOM,
      ROOM_TYPE_KITCHEN, ROOM_TYPE_OFFICE]) :
    c.calculate_co2_factor rt hr none = 0.2 ∧
    (∀ d : RoomData, d.room_type = rt → d.co2 = none →
      d.temp_in + 243.5 ≠ 0 → (273.15 : ℝ) + d.temp_in ≠ 0 →
      d.temp_out + 243.5 ≠ 0 → (273.15 : ℝ) + d.temp_out ≠ 0 →
      ∃ s, c.calculate_room_score d = some s) := by
  simp only [List.mem_cons, List.not_mem_nil, or_false, not_or] at hrt
  obtain ⟨n1, n2, n3, n4, n5⟩ := hrt
  constructor
  · simp [VentilationCalculator.calculate_co2_factor, n1, n2, n3, n4, n5]
  · intro d _ hco2 ht1 ht2 ht3 ht4
    exact ⟨_, room_score_eq_of_no_co2 c d _ _
      (calculate_absolute_humidity_eq c d.humidity_in d.temp_in ht1 ht2)
      (calculate_absolute_humidity_eq c d.humidity_out d.temp_out ht3 ht4) hco2⟩

/-- C1: `calculate_room_score` is the weighted sum of the five sub-factors
rounded to two decimals, with the weight regime chosen by CO₂ presence; the
wind factor enters unweighted in both regimes, and the default weight sets
are 0.35/0.35/0.2/0.1 (no CO₂) and 0.25/0.25/0.35/0.15 (with CO₂). -/
theorem C1_score_weight_regimes (c : VentilationCalculator) (d : RoomData)
    (ah_in ah_out : ℝ)
    (h1 : c.calculate_absolute_humidity d.humidity_in d.temp_in = some ah_in)
    (h2 : c.calculate_absolute_humidity d.humidity_out d.temp_out = some ah_out) :
    (d.co2 = none → c.calculate_room_score d = some (round2 (
      c.weight_temp *
        c.calculate_temperature_factor (d.temp_in - d.temp_out) d.month +
      c.weight_humidity * c.calculate_humidity_factor ah_in ah_out +
      c.weight_co2 * c.calculate_co2_factor d.room_type d.hour d.co2 +
      c.weight_time * c.calculate_time_factor d.hour +
      c.calculate_wind_factor d.wind_speed c.enable_wind_factor))) ∧
    (∀ v, d.co2 = some v → c.calculate_room_score d = some (round2 (
      c.weight_temp_with_co2 *
        c.calculate_temperature_factor (d.temp_in - d.temp_out) d.month +
      c.weight_humidity_with_co2 * c.calculate_humidity_factor ah_in ah_out +
      c.weight_co2_with_sensor * c.calculate_co2_factor d.room_type d.hour d.co2 +
      c.weight_time_with_co2 * c.calculate_time_factor d.hour +
      c.calculate_wind_factor d.wind_speed c.enable_wind_factor))) ∧
    (defaultCalculator.weight_temp = 0.35 ∧
     defaultCalculator.weight_humidity = 0.35 ∧
     defaultCalculator.weight_co2 = 0.2 ∧
     defaultCalculator.weight_time = 0.1) ∧
    (defaultCalculator.weight_temp_with_co2 = 0.25 ∧
     defaultCalculator.weight_humidity_with_co2 = 0.25 ∧
     defaultCalculator.weight_co2_with_sensor = 0.35 ∧
     defaultCalculator.weight_time_with_co2 = 0.15) := by
  refine ⟨?_, ?_, ⟨rfl, rfl, rfl, rfl⟩, ⟨rfl, rfl, rfl, rfl⟩⟩
  · intro hco2; exact room_score_eq_of_no_co2 c d ah_in ah_out h1 h2 hco2
  · intro v hco2; exact room_score_eq_of_co2 c d ah_in ah_out v h1 h2 hco2

/-- C1 witness: the theorem applied to the default calculator and a concrete
reading without CO₂. -/
theorem C1_score_weight_regimes_witness :
    defaultCalculator.calculate_absolute_humidity 50 20 =
      some (absolute_humidity_formula 50 20) ∧
    defaultCalculator.calculate_absolute_humidity 60 10 =
      some (absolute_humidity_formula 60 10) ∧
    sampleRoom.co2 = none ∧
    defaultCalculator.calculate_room_score sampleRoom = some (round2 (
      defaultCalculator.weight_temp *
        defaultCalculator.calculate_temperature_factor
          (sampleRoom.temp_in - sampleRoom.temp_out) sampleRoom.month +
      defaultCalculator.weight_humidity *
        defaultCalculator.calculate_humidity_factor
          (absolute_humidity_formula 50 20) (absolute_humidity_formula 60 10) +
      defaultCalculator.weight_co2 *
        defaultCalculator.calculate_co2_factor
          sampleRoom.room_type sampleRoom.hour sampleRoom.co2 +
      defaultCalculator.weight_time *
        defaultCalculator.calculate_time_factor sampleRoom.hour +
      defaultCalculator.calculate_wind_factor
        sampleRoom.wind_speed defaultCalculator.enable_wind_factor)) := by
  have h1 : defaultCalculator.calculate_absolute_humidity 50 20 =
      some (absolute_humidity_formula 50 20) :=
    calculate_absolute_humidity_eq defaultCalculator 50 20 (by norm_num) (by norm_num)
  have h2 : defaultCalculator.calculate_absolute_humidity 60 10 =
      some (absolute_humidity_formula 60 10) :=
    calculate_absolute_humidity_eq defaultCalculator 60 10 (by norm_num) (by norm_num)
  exact ⟨h1, h2, rfl,
    (C1_score_weight_regimes defaultCalculator sampleRoom _ _ h1 h2).1 rfl⟩

/-- C8: for readings with both temperatures above -243.5 °C the score
computation cannot hit a division by zero (it returns a value), and the
argument handed to `math.exp` stays below 17.67, so the exponential cannot
diverge either. -/
theorem C8_no_exception_ordinary_inputs (c : VentilationCalculator)
    (d : RoomData) (hin : -243.5 < d.temp_in) (hout : -243.5 < d.temp_out) :
    (∃ s, c.calculate_room_score d = some s) ∧
    exp_argument d.temp_in < 17.67 ∧ exp_argument d.temp_out < 17.67 := by
  have bound : ∀ t : ℝ, -243.5 < t → exp_argument t < 17.67 := by
    intro t ht
    have hp : (0 : ℝ) < t + 243.5 := by linarith
    rw [exp_argument, div_lt_iff₀ hp]
    nlinarith
  have p1 : d.temp_in + 243.5 ≠ 0 := by intro h; linarith
  have p2 : (273.15 : ℝ) + d.temp_in ≠ 0 := by intro h; linarith
  have p3 : d.temp_out + 243.5 ≠ 0 := by intro h; linarith
  have p4 : (273.15 : ℝ) + d.temp_out ≠ 0 := by intro h; linarith
  have h1 := calculate_absolute_humidity_eq c d.humidity_in d.temp_in p1 p2
  have h2 := calculate_absolute_humidity_eq c d.humidity_out d.temp_out p3 p4
  refine ⟨?_, bound _ hin, bound _ hout⟩
  cases hc : d.co2 with
  | none => exact ⟨_, room_score_eq_of_no_co2 c d _ _ h1 h2 hc⟩
  | some v => exact ⟨_, room_score_eq_of_co2 c d _ _ v h1 h2 hc⟩

/-- C8 witness: the theorem applied to the default calculator and a concrete
ordinary reading. -/
theorem C8_no_exception_ordinary_inputs_witness :
    (-243.5 : ℝ) < sampleRoom.temp_in ∧ (-243.5 : ℝ) < sampleRoom.temp_out ∧
    (∃ s, defaultCalculator.calculate_room_score sampleRoom = some s) ∧
    exp_argument sampleRoom.temp_in < 17.67 := by
  have hin : (-243.5 : ℝ) < sampleRoom.temp_in := by norm_num [sampleRoom]
  have hout : (-243.5 : ℝ) < sampleRoom.temp_out := by norm_num [sampleRoom]
  have h := C8_no_exception_ordinary_inputs defaultCalculator sampleRoom hin hout
  exact ⟨hin, hout, h.1, h.2.1⟩

/-- C7 witness: the theorem applied to the room type "garage". -/
theorem C7_unknown_room_type_defaults_witness :
    "garage" ∉ [ROOM_TYPE_LIVING_ROOM, ROOM_TYPE_BEDROOM, ROOM_TYPE_BATHROOM,
      ROOM_TYPE_KITCHEN, ROOM_TYPE_OFFICE] ∧
    defaultCalculator.calculate_co2_factor "garage" 12 none = 0.2 :=
  ⟨by decide,
    (C7_unknown_room_type_defaults defaultCalculator "garage" 12 (by decide)).1⟩

/-- C9: with the default configuration every score of a reading with
temperatures above -243.5 °C lies in [-0.5, 1]; each default weight set sums
to 1; and the range is not hard-clamped — an extreme custom weight takes a
concrete reading's score above 1. -/
theorem C9_default_score_range (d : RoomData)
    (hin : -243.5 < d.temp_in) (hout : -243.5 < d.temp_out) :
    (∃ s, defaultCalculator.calculate_room_score d = some s ∧
      -0.5 ≤ s ∧ s ≤ 1) ∧
    (defaultCalculator.weight_temp + defaultCalculator.weight_humidity +
      defaultCalculator.weight_co2 + defaultCalculator.weight_time = 1) ∧
    (defaultCalculator.weight_temp_with_co2 +
      defaultCalculator.weight_humidity_with_co2 +
      defaultCalculator.weight_co2_with_sensor +
      defaultCalculator.weight_time_with_co2 = 1) ∧
    (∃ s, bigCalculator.calculate_room_score unclampedRoom = some s ∧ 1 < s) := by
  have p1 : d.temp_in + 243.5 ≠ 0 := by intro h; linarith
  have p2 : (273.15 : ℝ) + d.temp_in ≠ 0 := by intro h; linarith
  have p3 : d.temp_out + 243.5 ≠ 0 := by intro h; linarith
  have p4 : (273.15 : ℝ) + d.temp_out ≠ 0 := by intro h; linarith
  have h1 := calculate_absolute_humidity_eq defaultCalculator d.humidity_in d.temp_in p1 p2
  have h2 := calculate_absolute_humidity_eq defaultCalculator d.humidity_out d.temp_out p3 p4
  obtain ⟨bt1, bt2⟩ := temperature_factor_bounds defaultCalculator
    (d.temp_in - d.temp_out) d.month
  obtain ⟨bh1, bh2⟩ := humidity_factor_bounds defaultCalculator
    (absolute_humidity_formula d.humidity_in d.temp_in)
    (absolute_humidity_formula d.humidity_out d.temp_out)
  obtain ⟨bc1, bc2⟩ := co2_factor_bounds defaultCalculator d.room_type d.hour d.co2
  obtain ⟨bm1, bm2⟩ := time_factor_bounds defaultCalculator d.hour
  obtain ⟨bw1, bw2⟩ := wind_factor_bounds defaultCalculator d.wind_speed
    defaultCalculator.enable_wind_factor
  refine ⟨?_,
    by
      rw [show defaultCalculator.weight_temp = 0.35 from rfl,
        show defaultCalculator.weight_humidity = 0.35 from rfl,
        show defaultCalculator.weight_co2 = 0.2 from rfl,
        show defaultCalculator.weight_time = 0.1 from rfl]
      norm_num,
    by
      rw [show defaultCalculator.weight_temp_with_co2 = 0.25 from rfl,
        show defaultCalculator.weight_humidity_with_co2 = 0.25 from rfl,
        show defaultCalculator.weight_co2_with_sensor = 0.35 from rfl,
        show defaultCalculator.weight_time_with_co2 = 0.15 from rfl]
      norm_num,
    ?_⟩
  · have range : ∀ x : ℝ, -0.5 ≤ x → x ≤ 1 → -0.5 ≤ round2 x ∧ round2 x ≤ 1 := by
      intro x hxl hxh
      constructor
      · have := le_round2_of_le x (-50) (by push_cast; linarith)
        push_cast at this; linarith
      · have := round2_le_of_le x 100 (by push_cast; linarith)
        push_cast at this; linarith
    cases hc : d.co2 with
    | none =>
      refine ⟨_, room_score_eq_of_no_co2 defaultCalculator d _ _ h1 h2 hc, ?_⟩
      have ew1 : defaultCalculator.weight_temp = 0.35 := rfl
      have ew2 : defaultCalculator.weight_humidity = 0.35 := rfl
      have ew3 : defaultCalculator.weight_co2 = 0.2 := rfl
      have ew4 : defaultCalculator.weight_time = 0.1 := rfl
      exact range _ (by rw [ew1, ew2, ew3, ew4]; nlinarith)
        (by rw [ew1, ew2, ew3, ew4]; nlinarith)
    | some v =>
      refine ⟨_, room_score_eq_of_co2 defaultCalculator d _ _ v h1 h2 hc, ?_⟩
      have ew1 : defaultCalculator.weight_temp_with_co2 = 0.25 := rfl
      have ew2 : defaultCalculator.weight_humidity_with_co2 = 0.25 := rfl
      have ew3 : defaultCalculator.weight_co2_with_sensor = 0.35 := rfl
      have ew4 : defaultCalculator.weight_time_with_co2 = 0.15 := rfl
      exact range _ (by rw [ew1, ew2, ew3, ew4]; nlinarith)
        (by rw [ew1, ew2, ew3, ew4]; nlinarith)
  · have g1 : bigCalculator.calculate_absolute_humidity unclampedRoom.humidity_in
        unclampedRoom.temp_in = some (absolute_humidity_formula 100 20) :=
      calculate_absolute_humidity_eq bigCalculator 100 20 (by norm_num) (by norm_num)
    have g2 : bigCalculator.calculate_absolute_humidity unclampedRoom.humidity_out
        unclampedRoom.temp_out = some (absolute_humidity_formula 10 20) :=
      calculate_absolute_humidity_eq bigCalculator 10 20 (by norm_num) (by norm_num)
    have hs := room_score_eq_of_no_co2 bigCalculator unclampedRoom _ _ g1 g2 rfl
    have eft : bigCalculator.calculate_temperature_factor
        (unclampedRoom.temp_in - unclampedRoom.temp_out) unclampedRoom.month = 0 := by
      show bigCalculator.calculate_temperature_factor ((20 : ℝ) - 20) 1 = 0
      have hm : (1 : ℤ) ∈ bigCalculator.winter_months := by decide
      have e1 : bigCalculator.temp_winter_good = 2.0 := rfl
      have e2 : bigCalculator.temp_winter_moderate = 0.0 := rfl
      unfold VentilationCalculator.calculate_temperature_factor
      rw [if_pos hm, e1, e2]
      norm_num
    have hE : (1 : ℝ) ≤ Real.exp ((17.67 * 20) / (20 + 243.5)) :=
      Real.one_le_exp (by norm_num)
    have hdiff : absolute_humidity_formula 100 20 - absolute_humidity_formula 10 20 >
        bigCalculator.humidity_good := by
      have hg : bigCalculator.humidity_good = 1.0 := rfl
      rw [hg]
      unfold absolute_humidity_formula
      rw [show (273.15 : ℝ) + 20 = 293.15 from by norm_num]
      have expand : (100 : ℝ) / 100 *
          (6.112 * Real.exp ((17.67 * 20) / (20 + 243.5))) * 2.1674 / 293.15 * 100 -
          (10 : ℝ) / 100 *
          (6.112 * Real.exp ((17.67 * 20) / (20 + 243.5))) * 2.1674 / 293.15 * 100 =
          6.112 * 2.1674 * 90 / 293.15 *
            Real.exp ((17.67 * 20) / (20 + 243.5)) := by ring
      nlinarith [hE, expand]
    have efrh : bigCalculator.calculate_humidity_factor
        (absolute_humidity_formula 100 20) (absolute_humidity_formula 10 20) = 1.0 := by
      unfold VentilationCalculator.calculate_humidity_factor
      rw [if_pos hdiff]
    have efco2 : bigCalculator.calculate_co2_factor unclampedRoom.room_type
        unclampedRoom.hour unclampedRoom.co2 = 0.2 := by
      show bigCalculator.calculate_co2_factor "garage" 3 none = 0.2
      simp [VentilationCalculator.calculate_co2_factor, ROOM_TYPE_BEDROOM,
        ROOM_TYPE_BATHROOM, ROOM_TYPE_OFFICE, ROOM_TYPE_KITCHEN, ROOM_TYPE_LIVING_ROOM]
    have eftime : bigCalculator.calculate_time_factor unclampedRoom.hour = 0.2 := by
      show bigCalculator.calculate_time_factor 3 = 0.2
      simp [VentilationCalculator.calculate_time_factor]
    have efw : bigCalculator.calculate_wind_factor unclampedRoom.wind_speed
        bigCalculator.enable_wind_factor = 0 := by
      show bigCalculator.calculate_wind_factor 0 true = 0
      have e1 : bigCalculator.wind_no_effect = 15.0 := rfl
      unfold VentilationCalculator.calculate_wind_factor
      rw [e1]
      norm_num
    rw [eft, efrh, efco2, eftime, efw] at hs
    have ew1 : bigCalculator.weight_temp = 0.35 := rfl
    have ew2 : bigCalculator.weight_humidity = 10 := rfl
    have ew3 : bigCalculator.weight_co2 = 0.2 := rfl
    have ew4 : bigCalculator.weight_time = 0.1 := rfl
    rw [ew1, ew2, ew3, ew4] at hs
    have ex : (0.35 * 0 + 10 * 1.0 + 0.2 * 0.2 + 0.1 * 0.2 + (0 : ℝ)) =
        ((1006 : ℤ) : ℝ) / 100 := by push_cast; norm_num
    rw [ex, round2_int_div] at hs
    refine ⟨_, hs, by push_cast; norm_num⟩

/-- C9 witness: the theorem applied to the default calculator and a concrete
ordinary reading. -/
theorem C9_default_score_range_witness :
    (-243.5 : ℝ) < sampleRoom.temp_in ∧ (-243.5 : ℝ) < sampleRoom.temp_out ∧
    (∃ s, defaultCalculator.calculate_room_score sampleRoom = some s ∧
      -0.5 ≤ s ∧ s ≤ 1) := by
  have hin : (-243.5 : ℝ) < sampleRoom.temp_in := by norm_num [sampleRoom]
  have hout : (-243.5 : ℝ) < sampleRoom.temp_out := by norm_num [sampleRoom]
  exact ⟨hin, hout, (C9_default_score_range sampleRoom hin hout).1⟩

end RoomVentilationAdvisor
